import Mathlib

/-!
Shallow embedding of the stream-validation, pipeline-construction and
manager/sink state logic of the mavlink-camera-manager repository, together
with theorems settling the specification claims about it.

The repository mixes two eras of the code base:
* `StreamBackend` embeds `src/stream/stream_backend.rs` and the types it uses
  (endpoint URLs, capture configuration, video sources).
* `Video` embeds `src/video/types.rs` (`VideoEncodeType` codec conversions).
* `FilePipeline` embeds the validation prefix of
  `src/stream/pipeline/file_pipeline.rs` (`FilePipeline::try_new`).
* `ManagerModel` embeds the stream-index and session bookkeeping of
  `src/stream/manager.rs` (`remove_stream`, `remove_session`).
* `RtspSinkModel` embeds `RtspSink::unlink` of `src/stream/sink/rtsp_sink.rs`
  over an explicit world state for the gstreamer pipeline and RTSP server.
-/

/-- Substring test helper: does `needle` occur as a prefix of `hay`? -/
def charsHaveLead : List Char → List Char → Bool
  | [], _ => true
  | _ :: _, [] => false
  | a :: as, b :: bs => a == b && charsHaveLead as bs

/-- Substring test helper: does `needle` occur anywhere inside `hay`? -/
def charsContain : List Char → List Char → Bool
  | needle, [] => needle.isEmpty
  | needle, c :: rest => charsHaveLead needle (c :: rest) || charsContain needle rest

/-- The `strContainsSub hay needle` holds when `needle` is a contiguous substring of `hay`. -/
def strContainsSub (hay needle : String) : Bool :=
  charsContain needle.data hay.data

/-- Generic test for an `Except` error result. -/
def isErr {ε α : Type} : Except ε α → Bool
  | .error _ => true
  | .ok _ => false

instance {ε α : Type} [DecidableEq ε] [DecidableEq α] : DecidableEq (Except ε α) := fun a b =>
  match a, b with
  | .ok x, .ok y =>
    if h : x = y then .isTrue (by rw [h]) else .isFalse (fun c => h (Except.ok.inj c))
  | .error x, .error y =>
    if h : x = y then .isTrue (by rw [h]) else .isFalse (fun c => h (Except.error.inj c))
  | .ok _, .error _ => .isFalse (fun c => Except.noConfusion c)
  | .error _, .ok _ => .isFalse (fun c => Except.noConfusion c)

theorem exceptOkBind {ε α β : Type} (a : α) (f : α → Except ε β) :
    (Except.ok a : Except ε α) >>= f = f a := rfl

theorem exceptErrorBind {ε α β : Type} (e : ε) (f : α → Except ε β) :
    (Except.error e : Except ε α) >>= f = .error e := rfl

theorem isErr_error {ε α : Type} (e : ε) : isErr (Except.error e : Except ε α) = true := rfl

namespace StreamBackend

/-- The `VideoEncodeType` as used by `src/stream/stream_backend.rs`
(this era of the enum spells the catch-all variant `UNKNOWN`). -/
inductive VideoEncodeType : Type
  | UNKNOWN (name : String)
  | H264
  | H265
  | MJPG
  | YUYV
deriving DecidableEq

/-- The `FrameInterval { numerator, denominator }` with `u32` fields modelled as `Nat`. -/
structure FrameInterval : Type where
  numerator : Nat
  denominator : Nat
deriving DecidableEq

/-- The `CaptureConfiguration { encode, height, width, frame_interval }`. -/
structure CaptureConfiguration : Type where
  encode : VideoEncodeType
  height : Nat
  width : Nat
  frame_interval : FrameInterval
deriving DecidableEq

/-- An endpoint `url::Url` with the fields the backend reads: `scheme()`,
`host()` (absent for host-less URLs), `port()` (absent when missing) and
`path()`. Hosts render as plain strings, ports as decimal numbers. -/
structure Url : Type where
  scheme : String
  host : Option String
  port : Option Nat
  path : String
deriving DecidableEq

/-- The `StreamInformation { endpoints, configuration }`. -/
structure StreamInformation : Type where
  endpoints : List Url
  configuration : CaptureConfiguration
deriving DecidableEq

/-- The `VideoSourceLocal { name, device_path, typ }`; the `typ` field is never read
by the backend, so it is kept as its textual form. -/
structure VideoSourceLocal : Type where
  name : String
  device_path : String
  typ : String
deriving DecidableEq

/-- The `VideoSourceGstType` variants read by `create_udp_stream`: the `Fake`
pattern arm plus a catch-all for every other variant (the backend's `_` arm of
the match rejects them without reading their payloads). -/
inductive VideoSourceGstType : Type
  | Fake (pattern : String)
  | Other (description : String)
deriving DecidableEq

/-- The `VideoSourceGst { name, source }`. -/
structure VideoSourceGst : Type where
  name : String
  source : VideoSourceGstType
deriving DecidableEq

/-- The `VideoSourceType` variants matched by `create_udp_stream` in this era
of the code: `Local` and `Gst`. -/
inductive VideoSourceType : Type
  | Local (local_device : VideoSourceLocal)
  | Gst (gst_source : VideoSourceGst)
deriving DecidableEq

/-- The `VideoAndStreamInformation { name, stream_information, video_source }`. -/
structure VideoAndStreamInformation : Type where
  name : String
  stream_information : StreamInformation
  video_source : VideoSourceType
deriving DecidableEq

/-- Outcome of the fallible backend functions: either a `SimpleError` message or
a reached `.unwrap()` on `None` / `.unwrap()` panic site. Modelling the panic
as an error variant lets panic-freedom be stated as unreachability. -/
inductive RError : Type
  | panic
  | simple (msg : String)
deriving DecidableEq

/-- Does a backend result come from a reached unwrap panic site? -/
def isPanic {α : Type} : Except RError α → Bool
  | .error .panic => true
  | _ => false

/-- The `StreamType` as produced by this backend: a UDP video stream carrying its
gstreamer pipeline description string. -/
inductive StreamType : Type
  | UDP (pipeline : String)
deriving DecidableEq

/-- The `endpoints.windows(2).all(|win| win[0].scheme() == win[1].scheme())`:
adjacent endpoints pairwise share their scheme. -/
def sameSchemes : List Url → Bool
  | a :: b :: rest => (a.scheme == b.scheme) && sameSchemes (b :: rest)
  | _ => true

/-- The `check_endpoints`: reject an empty endpoint list, then reject endpoint
lists whose entries do not all share one scheme. -/
def check_endpoints (v : VideoAndStreamInformation) : Except RError Unit :=
  let endpoints := v.stream_information.endpoints
  if endpoints.isEmpty then
    .error (.simple "Endpoints are empty")
  else if !(sameSchemes endpoints) then
    .error (.simple "Endpoints scheme are not the same")
  else
    .ok ()

/-- The `check_encode`: reject `UNKNOWN` encodes, then reject every encode other
than `H264` ("Only H264 encode is supported now"). -/
def check_encode (v : VideoAndStreamInformation) : Except RError Unit :=
  match v.stream_information.configuration.encode with
  | .UNKNOWN name => .error (.simple ("Encode is not supported: " ++ name))
  | encode =>
    if encode ≠ VideoEncodeType.H264 then
      .error (.simple "Only H264 encode is supported now")
    else
      .ok ()

/-- The `check_scheme`: dispatch on the scheme of the first endpoint
(`endpoints.first().unwrap()`, a panic on an empty list). `rtsp` admits at most
one endpoint; `udp` requires `H264` and a host and port on every endpoint;
`udp265` requires `H265`; any other scheme is rejected. -/
def check_scheme (v : VideoAndStreamInformation) : Except RError Unit :=
  let endpoints := v.stream_information.endpoints
  let encode := v.stream_information.configuration.encode
  match endpoints.head? with
  | none => .error .panic
  | some first =>
    if first.scheme == "rtsp" then
      if endpoints.length > 1 then
        .error (.simple "Multiple RTSP endpoints are not acceptable")
      else
        .ok ()
    else if first.scheme == "udp" then
      if encode ≠ VideoEncodeType.H264 then
        .error (.simple "Endpoint with udp scheme only supports H264 encode")
      else if encode = VideoEncodeType.H265 then
        .error (.simple "Endpoint with udp scheme only supports H264, the scheme should be udp265")
      else if endpoints.any (fun endpoint => endpoint.host.isNone || endpoint.port.isNone) then
        .error (.simple "Endpoint with udp scheme should contain host and port")
      else
        .ok ()
    else if first.scheme == "udp265" then
      if encode ≠ VideoEncodeType.H265 then
        .error (.simple "Endpoint with udp265 scheme only supports H265 encode")
      else
        .ok ()
    else
      .error (.simple ("Scheme is not accepted as stream endpoint: " ++ first.scheme))

/-- The `format!("{}:{}", endpoint.host().unwrap(), endpoint.port().unwrap())`:
the client string of one endpoint, a panic when host or port is absent. -/
def clientString (endpoint : Url) : Except RError String :=
  match endpoint.host, endpoint.port with
  | some host, some port => .ok (host ++ ":" ++ toString port)
  | _, _ => .error .panic

/-- The `endpoints.iter().map(...).collect()`: the client strings of every
endpoint in order, propagating the first reached unwrap panic. -/
def clientStrings : List Url → Except RError (List String)
  | [] => .ok []
  | endpoint :: rest => do
    let client ← clientString endpoint
    let clients ← clientStrings rest
    return client :: clients

/-- The `create_udp_stream`: build the source half of the pipeline from the video
source (v4l2 capture for `Local` with `H264`, a test source for `Gst::Fake`),
then for `H264` append the parse/pay chain and the `multiudpsink` whose
`clients` list joins `host:port` of every endpoint with commas. -/
def create_udp_stream (v : VideoAndStreamInformation) : Except RError StreamType := do
  let encode := v.stream_information.configuration.encode
  let endpoints := v.stream_information.endpoints
  let configuration := v.stream_information.configuration
  let video_format ←
    match v.video_source with
    | .Local local_device =>
      if encode = VideoEncodeType.H264 then
        Except.ok ("v4l2src device=" ++ local_device.device_path
          ++ " ! video/x-h264,width=" ++ toString configuration.width
          ++ ",height=" ++ toString configuration.height
          ++ ",framerate=" ++ toString configuration.frame_interval.denominator
          ++ "/" ++ toString configuration.frame_interval.numerator)
      else
        Except.error (.simple "Unsupported encode for UDP endpoint")
    | .Gst gst_source =>
      match gst_source.source with
      | .Fake pattern =>
        Except.ok ("videotestsrc pattern=" ++ pattern
          ++ " ! video/x-raw,width=" ++ toString configuration.width
          ++ ",height=" ++ toString configuration.height
          ++ ",framerate=" ++ toString configuration.frame_interval.denominator
          ++ "/" ++ toString configuration.frame_interval.numerator
          ++ " ! videoconvert !  x264enc bitrate=5000 ! video/x-h264, profile=baseline")
      | .Other _ =>
        Except.error (.simple "Unsupported GST source for UDP endpoint")
  if encode = VideoEncodeType.H264 then
    let udp_encode := " ! h264parse ! queue ! rtph264pay config-interval=10 pt=96"
    let clients ← clientStrings endpoints
    let clients := String.intercalate "," clients
    let udp_sink := " ! multiudpsink clients=" ++ clients
    let pipeline := video_format ++ udp_encode ++ udp_sink
    return StreamType.UDP pipeline
  else
    .error (.simple "Unsupported encode")

/-- The `create_stream`: read the scheme of the first endpoint
(`iter().next().unwrap()`, a panic on an empty list) and dispatch; only `udp`
is supported. -/
def create_stream (v : VideoAndStreamInformation) : Except RError StreamType :=
  match v.stream_information.endpoints.head? with
  | none => .error .panic
  | some endpoint =>
    if endpoint.scheme == "udp" then
      create_udp_stream v
    else
      .error (.simple ("Unsupported scheme: " ++ endpoint.scheme))

/-- The `stream_backend::new`: run the three validators in order, then build. -/
def new (v : VideoAndStreamInformation) : Except RError StreamType := do
  check_endpoints v
  check_encode v
  check_scheme v
  create_stream v

end StreamBackend

namespace Video

/-- The `VideoEncodeType` as declared in `src/video/types.rs` (this era of the
enum spells the catch-all variant `Unknown`). -/
inductive VideoEncodeType : Type
  | Unknown (codec : String)
  | H265
  | H264
  | Mjpg
  | Yuyv
deriving DecidableEq

/-- The `VideoEncodeType::to_codec`: map each encode to its caps codec string;
`Unknown` returns its payload unchanged. -/
def VideoEncodeType.to_codec : VideoEncodeType → String
  | .H264 => "video/x-h264"
  | .H265 => "video/x-h265"
  | .Mjpg => "video/mpeg"
  | .Yuyv => "video/x-raw,format=I420"
  | .Unknown codec => codec

/-- The `VideoEncodeType::from_codec`: inverse mapping over the four known codec
strings; anything else becomes `Unknown`. -/
def VideoEncodeType.from_codec (codec : String) : VideoEncodeType :=
  match codec with
  | "video/x-h264" => .H264
  | "video/x-h265" => .H265
  | "video/mpeg" => .Mjpg
  | "video/x-raw,format=I420" => .Yuyv
  | codec => .Unknown codec

/-- The `VideoEncodeType::from_str`: uppercase the fourcc and map the three known
names; anything else becomes `Unknown` of the uppercased input. -/
def VideoEncodeType.fromFourcc (fourcc : String) : VideoEncodeType :=
  let fourcc := fourcc.toUpper
  match fourcc with
  | "H264" => .H264
  | "MJPG" => .Mjpg
  | "YUYV" => .Yuyv
  | _ => .Unknown fourcc

/-- Modelled from the spec: the textual rendering of `VideoEncodeType` used by
`encode.to_string()` in `FilePipeline::try_new` (the `Display` implementation
is not under `src/`). Known variants render as their names; `Unknown(s)`
renders as its payload, which for file sources holds the raw caps codec name
discovered from the file (e.g. "image/jpeg", see
`VideoSourceFile::cameras_available`). -/
def VideoEncodeType.toText : VideoEncodeType → String
  | .H264 => "H264"
  | .H265 => "H265"
  | .Mjpg => "MJPG"
  | .Yuyv => "YUYV"
  | .Unknown codec => codec

/-- The `FrameInterval` of `src/video/types.rs`. -/
structure FrameInterval : Type where
  numerator : Nat
  denominator : Nat
deriving DecidableEq

end Video

namespace FilePipeline

/-- The `VideoCaptureConfiguration { encode, height, width, frame_interval }` from
`src/video/video_source_file.rs`. -/
structure VideoCaptureConfiguration : Type where
  encode : Video.VideoEncodeType
  height : Nat
  width : Nat
  frame_interval : Video.FrameInterval
deriving DecidableEq

/-- The `CaptureConfiguration` enum matched by `FilePipeline::try_new`: the
`Video` arm it reads, plus a catch-all for the variants its `unsupported` arm
rejects without reading (the declaring file is not under `src/`). -/
inductive CaptureConfiguration : Type
  | Video (configuration : VideoCaptureConfiguration)
  | Other
deriving DecidableEq

/-- The `VideoSourceFile { name, source, configuration }`; the `PathBuf` source is
kept as its textual form (`into_os_string().into_string()`). -/
structure VideoSourceFile : Type where
  name : String
  source : String
  configuration : VideoCaptureConfiguration
deriving DecidableEq

/-- The `VideoSourceType` variants as read by `FilePipeline::try_new`: the
`File` arm it uses, plus a catch-all for `Local`, `Gst` and `Redirect`, whose
payloads the `unsupported` arm never reads. -/
inductive VideoSourceType : Type
  | File (source : VideoSourceFile)
  | OtherSource
deriving DecidableEq

/-- The `StreamInformation` of this era, restricted to the field `try_new`
reads: its `configuration`. -/
structure StreamInformation : Type where
  configuration : CaptureConfiguration
deriving DecidableEq

/-- The `VideoAndStreamInformation` of this era, restricted to the fields
`try_new` reads. -/
structure VideoAndStreamInformation : Type where
  name : String
  stream_information : StreamInformation
  video_source : VideoSourceType
deriving DecidableEq

/-- The `FilePipeline::try_new` up to and including the handoff to
`gst::parse::launch`: an `.ok` result is the pipeline description string the
function hands to the gstreamer parser, i.e. validation has passed and
construction is reached. The tee/filter naming constants live outside `src/`;
they are modelled as the literal names with the pipeline id appended, which is
irrelevant to validation. The dimension check is translated exactly as
written: it fires only when `width % 2 != 0 && height % 2 != 0`. -/
def tryNew (pipeline_id : Nat) (v : VideoAndStreamInformation) : Except String String :=
  match v.stream_information.configuration with
  | .Other => .error "is not supported as Fake Pipeline"
  | .Video configuration =>
    match v.video_source with
    | .OtherSource => .error "SourceType is not supported as Fake Pipeline"
    | .File video_source =>
      let filter_name := "Filter" ++ "-" ++ toString pipeline_id
      let video_tee_name := "VideoTee" ++ "-" ++ toString pipeline_id
      let rtp_tee_name := "RtpTee" ++ "-" ++ toString pipeline_id
      let width := configuration.width
      let height := configuration.height
      let encode := configuration.encode
      if width % 2 != 0 && height % 2 != 0 then
        .error "Width and height must be multiples of 2"
      else if !(strContainsSub encode.toText "image") then
        .error "Format not supported, only images are supported at the moment."
      else
        .ok ("multifilesrc location=" ++ video_source.source
          ++ " ! decodebin ! videoconvert ! imagefreeze ! videobox"
          ++ " ! video/x-raw,format=I420,width=" ++ toString width
          ++ ",height=" ++ toString height ++ ",framerate=30/1"
          ++ " ! x264enc"
          ++ " ! capsfilter name=" ++ filter_name
          ++ " caps=video/x-h264,width=" ++ toString width
          ++ ",height=" ++ toString height ++ ",framerate=30/1"
          ++ " ! tee name=" ++ video_tee_name ++ " allow-not-linked=true"
          ++ " ! rtph264pay config-interval=1 pt=96"
          ++ " ! tee name=" ++ rtp_tee_name ++ " allow-not-linked=true")

end FilePipeline

namespace ManagerModel

/-- The per-stream state the manager operations of `src/stream/manager.rs`
touch: the pipeline's sinks map, kept as the list of sink ids (the map keys;
`HashMap` keys are unique, and only membership and removal are exercised).
Uuids are modelled as `Nat`. -/
structure StreamModel : Type where
  sinks : List Nat
deriving DecidableEq

/-- The manager's stream index `streams: HashMap<uuid::Uuid, Stream>`,
modelled as an association list with unique keys; lookup reads the first
matching entry and removal erases every entry of the key, which agree with the
hash map on key-unique lists. -/
structure State : Type where
  streams : List (Nat × StreamModel)
deriving DecidableEq

/-- The `BindAnswer { producer_id, consumer_id, session_id }`. -/
structure BindAnswer : Type where
  producer_id : Nat
  consumer_id : Nat
  session_id : Nat
deriving DecidableEq

/-- The `streams.get_mut(&id)` / `streams.get(&id)`: first binding of the key. -/
def lookupStream : List (Nat × StreamModel) → Nat → Option StreamModel
  | [], _ => none
  | (k, s) :: rest, id => if k == id then some s else lookupStream rest id

/-- In-place mutation of the stream found by `get_mut`: replace the first
binding of the key. -/
def updateStream : List (Nat × StreamModel) → Nat → StreamModel → List (Nat × StreamModel)
  | [], _, _ => []
  | (k, s) :: rest, id, s' => if k == id then (k, s') :: rest else (k, s) :: updateStream rest id s'

/-- The `streams.contains_key(&id)`. -/
def containsKey (streams : List (Nat × StreamModel)) (id : Nat) : Bool :=
  streams.any (fun p => p.fst == id)

/-- Modelled from the spec: `remove_sink(sink_id)` of the pipeline's inner
state (its declaring file is not under `src/`); per the spec it removes the
sink from the sinks map and fails `NotFound` when the id is missing. -/
def remove_sink (sinks : List Nat) (sink_id : Nat) : Except String (List Nat) :=
  if sink_id ∈ sinks then
    .ok (sinks.filter (fun s => s != sink_id))
  else
    .error "NotFound"

/-- The `Manager::remove_session`: locate the producer's stream (error when the
producer id is unknown), then remove the session's sink from the pipeline
state, propagating a failure of `remove_sink` with added context (`?`). -/
def remove_session (st : State) (bind : BindAnswer) : Except String State :=
  match lookupStream st.streams bind.producer_id with
  | none => .error ("Producer " ++ toString bind.producer_id ++ " not found")
  | some stream =>
    match remove_sink stream.sinks bind.session_id with
    | .error e => .error ("Cannot remove session " ++ toString bind.session_id ++ ": " ++ e)
    | .ok sinks =>
      .ok { streams := updateStream st.streams bind.producer_id { sinks := sinks } }

/-- The `Manager::remove_stream` restricted to the stream index it mutates: fail
"Already removed" when the id is not a key, otherwise remove the entry. The
subsequent gstreamer teardown (EOS, Null wait, sink unlinking) acts on the
removed stream's pipeline, not on the index, and its failures are only logged. -/
def remove_stream (st : State) (stream_id : Nat) : Except String State :=
  if !(containsKey st.streams stream_id) then
    .error "Already removed"
  else
    match lookupStream st.streams stream_id with
    | none => .error ("Stream " ++ toString stream_id ++ " not found")
    | some _stream =>
      .ok { streams := st.streams.filter (fun p => p.fst != stream_id) }

end ManagerModel

namespace RtspSinkModel

/-- The fields of `RtspSink` that `unlink` reads: its id, the element id of
its owned queue, the RTSP path it serves, and the optionally stored tee source
pad. Gstreamer object identities are modelled as strings. -/
structure RtspSink : Type where
  sink_id : Nat
  queue : String
  path : String
  tee_src_pad : Option String
deriving DecidableEq

/-- The world `unlink` acts on: the pipeline's element set, the pad links
(src pad, sink pad), the request pads currently held by the pipeline's tee,
whether an element with the tee's well-known name exists, the paths currently
served by the process-wide RTSP server, and the elements driven to the Null
state. The gstreamer primitives are modelled with their documented success
conditions (an unlink fails when the pads are not linked, a removal fails when
the object is not present); the RTSP server side is modelled from the spec:
`stop_pipeline(path)` stops serving that path. -/
structure World : Type where
  elements : List String
  links : List (String × String)
  teePads : List String
  hasTee : Bool
  served : List String
  nulled : List String
deriving DecidableEq

/-- The queue's static sink pad (`queue.static_pad("sink")`). -/
def queueSinkPad (sink : RtspSink) : String :=
  sink.queue ++ ":sink"

/-- The `RtspSink::unlink`: with no stored tee source pad, warn and return `Ok`
without touching anything; otherwise unlink the tee's source pad from the
queue's sink pad, remove the queue element from the pipeline, drive the queue
to Null, remove the stored pad from the tee element (located by name), and
stop serving the sink's RTSP path. Each step surfaces its failure. -/
def unlink (sink : RtspSink) (w : World) : Except String World :=
  match sink.tee_src_pad with
  | none => .ok w
  | some tee_src_pad =>
    let qpad := queueSinkPad sink
    if !(w.links.contains (tee_src_pad, qpad)) then
      .error "Failed unlinking Sink from Tee's source pad"
    else
      let w := { w with links := w.links.filter (fun l => l != (tee_src_pad, qpad)) }
      if !(w.elements.contains sink.queue) then
        .error "Failed removing RtspSrc element from Pipeline"
      else
        let w := { w with
          elements := w.elements.filter (fun e => e != sink.queue),
          nulled := sink.queue :: w.nulled }
        if !w.hasTee then
          .error "no element named PIPELINE_TEE_NAME"
        else if !(w.teePads.contains tee_src_pad) then
          .error "Failed removing Tee's source pad"
        else
          let w := { w with teePads := w.teePads.filter (fun p => p != tee_src_pad) }
          if !(w.served.contains sink.path) then
            .error "Failed stopping RTSP pipeline"
          else
            .ok { w with served := w.served.filter (fun p => p != sink.path) }

end RtspSinkModel

section ConcreteInputs

open StreamBackend

/-- The UDP H.264 local request of the end-to-end scenario: name "A", local
source `/dev/video0`, H264, 1080x720, frame interval 1/30, one endpoint
`udp://192.168.0.1:42`. -/
def scenarioRequest : StreamBackend.VideoAndStreamInformation :=
  { name := "A"
    stream_information :=
      { endpoints := [{ scheme := "udp", host := some "192.168.0.1", port := some 42, path := "" }]
        configuration :=
          { encode := .H264
            height := 720
            width := 1080
            frame_interval := { numerator := 1, denominator := 30 } } }
    video_source := .Local { name := "A", device_path := "/dev/video0", typ := "Usb" } }

/-- The pipeline description the backend builds for `scenarioRequest`. -/
def scenarioPipeline : String :=
  "v4l2src device=/dev/video0 ! video/x-h264,width=1080,height=720,framerate=30/1 ! h264parse ! queue ! rtph264pay config-interval=10 pt=96 ! multiudpsink clients=192.168.0.1:42"

/-- The `scenarioRequest` with width 1081: odd width, even height. -/
def oddWidthRequest : StreamBackend.VideoAndStreamInformation :=
  { scenarioRequest with
    stream_information :=
      { scenarioRequest.stream_information with
        configuration :=
          { scenarioRequest.stream_information.configuration with width := 1081 } } }

/-- A file-pipeline request with odd width 1081 and even height 720 over an
image file source. -/
def oddWidthFileRequest : FilePipeline.VideoAndStreamInformation :=
  { name := "file"
    stream_information :=
      { configuration :=
          FilePipeline.CaptureConfiguration.Video
            { encode := .Unknown "image/jpeg"
              height := 720
              width := 1081
              frame_interval := { numerator := 1, denominator := 30 } } }
    video_source :=
      .File
        { name := "photo.jpg"
          source := "/videos/photo.jpg"
          configuration :=
            { encode := .Unknown "image/jpeg"
              height := 720
              width := 1081
              frame_interval := { numerator := 1, denominator := 30 } } } }

/-- A request whose single endpoint uses the `udp265` scheme with H265 encode. -/
def udp265Request : StreamBackend.VideoAndStreamInformation :=
  { name := "B"
    stream_information :=
      { endpoints := [{ scheme := "udp265", host := some "0.0.0.0", port := some 5600, path := "" }]
        configuration :=
          { encode := .H265
            height := 720
            width := 1280
            frame_interval := { numerator := 1, denominator := 30 } } }
    video_source := .Local { name := "B", device_path := "/dev/video2", typ := "Usb" } }

/-- A manager state with one stream (producer 1) holding one session sink (7). -/
def sessionState : ManagerModel.State := { streams := [(1, { sinks := [7] })] }

/-- The bind answer targeting producer 1, session 7. -/
def sessionBind : ManagerModel.BindAnswer :=
  { producer_id := 1, consumer_id := 2, session_id := 7 }

/-- The `sessionState` after session 7 has been removed. -/
def sessionStateAfter : ManagerModel.State := { streams := [(1, { sinks := [] })] }

end ConcreteInputs

/-- C10: for each of the four known encode variants, converting to its codec
string and back with `VideoEncodeType::from_codec` returns the same variant. -/
theorem encode_codec_round_trip :
    Video.VideoEncodeType.from_codec (Video.VideoEncodeType.to_codec .H264) = .H264
    ∧ Video.VideoEncodeType.from_codec (Video.VideoEncodeType.to_codec .H265) = .H265
    ∧ Video.VideoEncodeType.from_codec (Video.VideoEncodeType.to_codec .Mjpg) = .Mjpg
    ∧ Video.VideoEncodeType.from_codec (Video.VideoEncodeType.to_codec .Yuyv) = .Yuyv := by
  refine ⟨?_, ?_, ?_, ?_⟩ <;> decide

/-- C5: the UDP H.264 local scenario request is accepted by `new` and its
pipeline description contains the v4l2 source with the requested device, the
caps with width, height and framerate `denominator/numerator`, and the
`multiudpsink` whose clients list is the endpoint's `host:port`. -/
theorem scenario_pipeline_description :
    StreamBackend.new scenarioRequest = .ok (.UDP scenarioPipeline)
    ∧ strContainsSub scenarioPipeline "v4l2src device=/dev/video0" = true
    ∧ strContainsSub scenarioPipeline "width=1080,height=720,framerate=30/1" = true
    ∧ strContainsSub scenarioPipeline "multiudpsink clients=192.168.0.1:42" = true :=
  ⟨rfl, by decide, by decide, by decide⟩

/-- C1: dimension validation does not behave as specified. The stream backend
`new` performs no width/height check at all: the scenario request with odd
width 1081 and even height 720 is accepted and its pipeline is built. The file
pipeline's check fires only when width and height are both odd, so the same
odd-width/even-height dimensions pass it and `try_new` reaches pipeline
construction, although its own error message demands both dimensions be
multiples of 2. -/
theorem odd_width_accepted :
    StreamBackend.new oddWidthRequest =
      .ok (.UDP "v4l2src device=/dev/video0 ! video/x-h264,width=1081,height=720,framerate=30/1 ! h264parse ! queue ! rtph264pay config-interval=10 pt=96 ! multiudpsink clients=192.168.0.1:42")
    ∧ isErr (FilePipeline.tryNew 0 oddWidthFileRequest) = false :=
  ⟨rfl, by decide⟩

/-- C2 (counterexample): the request with a `udp265` endpoint and H265 encode
is rejected by the validation pipeline: `check_encode` only accepts H264, so
`new` fails although the scheme check alone would accept it. -/
theorem udp265_h265_rejected :
    StreamBackend.new udp265Request = .error (.simple "Only H264 encode is supported now") :=
  rfl

/-- C3 (counterexample): `remove_session` is not idempotent. Removing session
7 of producer 1 succeeds once, and the repeated call for the same pair fails
instead of returning Ok. -/
theorem remove_session_not_idempotent :
    ManagerModel.remove_session sessionState sessionBind = .ok sessionStateAfter
    ∧ isErr (ManagerModel.remove_session sessionStateAfter sessionBind) = true :=
  ⟨rfl, by decide⟩

namespace StreamBackend

theorem new_eq (v : VideoAndStreamInformation) :
    new v = (check_endpoints v >>= fun _ => check_encode v >>= fun _ =>
      check_scheme v >>= fun _ => create_stream v) := rfl

theorem new_ok_structure (v : VideoAndStreamInformation) :
    isErr (new v) = true
    ∨ (check_endpoints v = .ok () ∧ check_encode v = .ok () ∧ check_scheme v = .ok ()) := by
  cases h1 : check_endpoints v with
  | error e => left; simp only [new_eq, h1, exceptErrorBind]; rfl
  | ok u =>
    cases u
    cases h2 : check_encode v with
    | error e => left; simp only [new_eq, h1, exceptOkBind, h2, exceptErrorBind]; rfl
    | ok u =>
      cases u
      cases h3 : check_scheme v with
      | error e =>
        left; simp only [new_eq, h1, exceptOkBind, h2, h3, exceptErrorBind]; rfl
      | ok u =>
        cases u
        right
        exact ⟨rfl, rfl, rfl⟩

theorem check_endpoints_ok_ne_nil (v : VideoAndStreamInformation)
    (h : check_endpoints v = .ok ()) : v.stream_information.endpoints ≠ [] := by
  intro hnil
  simp [check_endpoints, hnil] at h

theorem check_endpoints_ok_sameSchemes (v : VideoAndStreamInformation)
    (h : check_endpoints v = .ok ()) :
    sameSchemes v.stream_information.endpoints = true := by
  by_contra hs
  have hs' : sameSchemes v.stream_information.endpoints = false := by
    cases hb : sameSchemes v.stream_information.endpoints
    · rfl
    · exact absurd hb hs
  cases hie : v.stream_information.endpoints.isEmpty
  · simp [check_endpoints, hie, hs'] at h
  · simp [check_endpoints, hie] at h

theorem check_encode_ok_h264 (v : VideoAndStreamInformation)
    (h : check_encode v = .ok ()) :
    v.stream_information.configuration.encode = .H264 := by
  cases henc : v.stream_information.configuration.encode <;>
    simp [check_encode, henc] at h ⊢

theorem check_scheme_ok_rtsp_single (v : VideoAndStreamInformation) (first : Url)
    (h : check_scheme v = .ok ())
    (hhead : v.stream_information.endpoints.head? = some first)
    (hscheme : first.scheme = "rtsp") :
    ¬(v.stream_information.endpoints.length > 1) := by
  intro hlen
  simp [check_scheme, hhead, hscheme, hlen] at h

theorem check_scheme_ok_udp_hostport (v : VideoAndStreamInformation) (first : Url)
    (h : check_scheme v = .ok ())
    (hhead : v.stream_information.endpoints.head? = some first)
    (hscheme : first.scheme = "udp") :
    v.stream_information.endpoints.any
      (fun endpoint => endpoint.host.isNone || endpoint.port.isNone) = false := by
  by_contra hany
  have hany' : v.stream_information.endpoints.any
      (fun endpoint => endpoint.host.isNone || endpoint.port.isNone) = true := by
    cases hb : v.stream_information.endpoints.any
        (fun endpoint => endpoint.host.isNone || endpoint.port.isNone)
    · exact absurd hb hany
    · rfl
  cases henc : v.stream_information.configuration.encode <;>
    simp [check_scheme, hhead, hscheme, henc, hany'] at h

end StreamBackend

/-- C2 (amended): for every request whose first endpoint uses the `udp265`
scheme, the scheme check alone accepts exactly the H265 encode, but the full
validation `new` rejects every such request, because `check_encode` runs first
and accepts only H264. -/
theorem udp265_scheme_requires_h265 (v : StreamBackend.VideoAndStreamInformation)
    (first : StreamBackend.Url)
    (hhead : v.stream_information.endpoints.head? = some first)
    (hscheme : first.scheme = "udp265") :
    (StreamBackend.check_scheme v = .ok ()
      ↔ v.stream_information.configuration.encode = .H265)
    ∧ isErr (StreamBackend.new v) = true := by
  constructor
  · constructor
    · intro h
      by_contra hne
      simp [StreamBackend.check_scheme, hhead, hscheme, hne] at h
    · intro h
      simp [StreamBackend.check_scheme, hhead, hscheme, h]
  · rcases StreamBackend.new_ok_structure v with herr | ⟨h1, h2, h3⟩
    · exact herr
    · exfalso
      have henc := StreamBackend.check_encode_ok_h264 v h2
      simp [StreamBackend.check_scheme, hhead, hscheme, henc] at h3

/-- C6: stream creation validation errors out, constructing nothing, on (a)
an empty endpoint list, (b) endpoints that do not all share one scheme, and
(c) a udp-scheme request in which some endpoint lacks a host or a port. -/
theorem stream_validation_rejections (v : StreamBackend.VideoAndStreamInformation)
    (h : v.stream_information.endpoints = []
      ∨ StreamBackend.sameSchemes v.stream_information.endpoints = false
      ∨ ((∀ e ∈ v.stream_information.endpoints, e.scheme = "udp")
          ∧ ∃ e ∈ v.stream_information.endpoints, e.host = none ∨ e.port = none)) :
    isErr (StreamBackend.new v) = true := by
  rcases StreamBackend.new_ok_structure v with herr | ⟨h1, h2, h3⟩
  · exact herr
  · exfalso
    rcases h with hnil | hmix | ⟨hall, e, hmem, hmiss⟩
    · exact StreamBackend.check_endpoints_ok_ne_nil v h1 hnil
    · have := StreamBackend.check_endpoints_ok_sameSchemes v h1
      rw [hmix] at this
      simp at this
    · cases hep : v.stream_information.endpoints with
      | nil => rw [hep] at hmem; cases hmem
      | cons a t =>
        have hh : v.stream_information.endpoints.head? = some a := by rw [hep]; rfl
        have hs : a.scheme = "udp" := hall a (by rw [hep]; exact List.mem_cons_self a t)
        have hany := StreamBackend.check_scheme_ok_udp_hostport v a h3 hh hs
        have hany' : v.stream_information.endpoints.any
            (fun endpoint => endpoint.host.isNone || endpoint.port.isNone) = true := by
          apply List.any_eq_true.mpr
          refine ⟨e, hmem, ?_⟩
          rcases hmiss with hm | hm <;> simp [hm]
        rw [hany'] at hany
        simp at hany

/-- C7: a request whose endpoints all use the rtsp scheme fails validation
whenever the endpoint list has more than one element, so an accepted RTSP
stream has exactly one endpoint. -/
theorem rtsp_multiple_endpoints_rejected (v : StreamBackend.VideoAndStreamInformation)
    (hall : ∀ e ∈ v.stream_information.endpoints, e.scheme = "rtsp")
    (hlen : v.stream_information.endpoints.length > 1) :
    isErr (StreamBackend.new v) = true := by
  rcases StreamBackend.new_ok_structure v with herr | ⟨h1, h2, h3⟩
  · exact herr
  · exfalso
    cases hep : v.stream_information.endpoints with
    | nil => rw [hep] at hlen; simp at hlen
    | cons a t =>
      have hh : v.stream_information.endpoints.head? = some a := by rw [hep]; rfl
      have hs : a.scheme = "rtsp" := hall a (by rw [hep]; exact List.mem_cons_self a t)
      exact StreamBackend.check_scheme_ok_rtsp_single v a h3 hh hs hlen

namespace StreamBackend

theorem isPanic_error_cast {α β : Type} (e : RError) :
    isPanic (Except.error e : Except RError α) = isPanic (Except.error e : Except RError β) := by
  cases e <;> rfl

theorem check_endpoints_no_panic (v : VideoAndStreamInformation) :
    isPanic (check_endpoints v) = false := by
  simp only [check_endpoints]
  split
  · rfl
  · split
    · rfl
    · rfl

theorem check_encode_no_panic (v : VideoAndStreamInformation) :
    isPanic (check_encode v) = false := by
  cases henc : v.stream_information.configuration.encode <;>
    simp [check_encode, henc, isPanic]

theorem check_scheme_no_panic (v : VideoAndStreamInformation)
    (hne : v.stream_information.endpoints ≠ []) :
    isPanic (check_scheme v) = false := by
  cases hep : v.stream_information.endpoints with
  | nil => exact absurd hep hne
  | cons a t =>
    have hh : v.stream_information.endpoints.head? = some a := by rw [hep]; rfl
    simp only [check_scheme, hh]
    split
    · split
      · rfl
      · rfl
    · split
      · split
        · rfl
        · split
          · rfl
          · split
            · rfl
            · rfl
      · split
        · split
          · rfl
          · rfl
        · rfl

theorem clientStrings_ok (l : List Url)
    (h : l.any (fun endpoint => endpoint.host.isNone || endpoint.port.isNone) = false) :
    ∃ cs, clientStrings l = .ok cs := by
  induction l with
  | nil => exact ⟨[], rfl⟩
  | cons a t ih =>
    rw [List.any_cons] at h
    rw [Bool.or_eq_false_iff] at h
    obtain ⟨ha, ht⟩ := h
    rw [Bool.or_eq_false_iff] at ha
    obtain ⟨hhost, hport⟩ := ha
    obtain ⟨cs, hcs⟩ := ih ht
    cases hh : a.host with
    | none => rw [hh] at hhost; simp at hhost
    | some host =>
      cases hp : a.port with
      | none => rw [hp] at hport; simp at hport
      | some port =>
        refine ⟨(host ++ ":" ++ toString port) :: cs, ?_⟩
        simp [clientStrings, clientString, hh, hp, hcs, exceptOkBind]

theorem create_udp_stream_no_panic (v : VideoAndStreamInformation)
    (hany : v.stream_information.endpoints.any
      (fun endpoint => endpoint.host.isNone || endpoint.port.isNone) = false) :
    isPanic (create_udp_stream v) = false := by
  obtain ⟨cs, hcs⟩ := clientStrings_ok _ hany
  cases hvs : v.video_source with
  | Local l =>
    by_cases henc : v.stream_information.configuration.encode = .H264
    · simp [create_udp_stream, hvs, henc, hcs, exceptOkBind, isPanic]
    · simp [create_udp_stream, hvs, henc, exceptErrorBind, isPanic]
  | Gst g =>
    cases hgs : g.source with
    | Fake p =>
      by_cases henc : v.stream_information.configuration.encode = .H264
      · simp [create_udp_stream, hvs, hgs, henc, hcs, exceptOkBind, isPanic]
      · simp [create_udp_stream, hvs, hgs, henc, exceptOkBind, exceptErrorBind, isPanic]
    | Other d =>
      simp [create_udp_stream, hvs, hgs, exceptErrorBind, isPanic]

theorem create_stream_no_panic (v : VideoAndStreamInformation) (first : Url)
    (hhead : v.stream_information.endpoints.head? = some first)
    (hudp : first.scheme = "udp" →
      v.stream_information.endpoints.any
        (fun endpoint => endpoint.host.isNone || endpoint.port.isNone) = false) :
    isPanic (create_stream v) = false := by
  cases hs : (first.scheme == "udp") with
  | false => simp [create_stream, hhead, hs, isPanic]
  | true =>
    have hs' : first.scheme = "udp" := by simpa using hs
    have hnp := create_udp_stream_no_panic v (hudp hs')
    simp only [create_stream, hhead, hs]
    simpa using hnp

end StreamBackend

/-- C9: the backend validation pipeline is panic-free at its unwrap sites:
`new` never evaluates to the panic outcome, because `check_endpoints` runs
before `check_scheme` (so the first-endpoint unwrap sees a non-empty list) and
`check_scheme` verifies host and port of every udp endpoint before
`create_udp_stream` unwraps them. -/
theorem backend_new_panic_free (v : StreamBackend.VideoAndStreamInformation) :
    StreamBackend.isPanic (StreamBackend.new v) = false := by
  open StreamBackend in
  cases h1 : check_endpoints v with
  | error e =>
    have hnp := check_endpoints_no_panic v
    rw [h1] at hnp
    simp only [new_eq, h1, exceptErrorBind]
    exact (@StreamBackend.isPanic_error_cast Unit StreamBackend.StreamType e) ▸ hnp
  | ok u =>
    cases u
    cases h2 : check_encode v with
    | error e =>
      have hnp := check_encode_no_panic v
      rw [h2] at hnp
      simp only [new_eq, h1, exceptOkBind, h2, exceptErrorBind]
      exact (@StreamBackend.isPanic_error_cast Unit StreamBackend.StreamType e) ▸ hnp
    | ok u =>
      cases u
      have hne := check_endpoints_ok_ne_nil v h1
      cases h3 : check_scheme v with
      | error e =>
        have hnp := check_scheme_no_panic v hne
        rw [h3] at hnp
        simp only [new_eq, h1, exceptOkBind, h2, h3, exceptErrorBind]
        exact (@StreamBackend.isPanic_error_cast Unit StreamBackend.StreamType e) ▸ hnp
      | ok u =>
        cases u
        cases hep : v.stream_information.endpoints with
        | nil => exact absurd hep hne
        | cons a t =>
          have hh : v.stream_information.endpoints.head? = some a := by rw [hep]; rfl
          have hudp : a.scheme = "udp" →
              v.stream_information.endpoints.any
                (fun endpoint => endpoint.host.isNone || endpoint.port.isNone) = false :=
            fun hs => check_scheme_ok_udp_hostport v a h3 hh hs
          have hnp := create_stream_no_panic v a hh hudp
          simp only [new_eq, h1, exceptOkBind, h2, h3]
          exact hnp

namespace ManagerModel

theorem lookupStream_update_self (l : List (Nat × StreamModel)) (id : Nat)
    (stream s' : StreamModel) (h : lookupStream l id = some stream) :
    lookupStream (updateStream l id s') id = some s' := by
  induction l with
  | nil => simp [lookupStream] at h
  | cons p rest ih =>
    obtain ⟨k, st⟩ := p
    cases hk : (k == id) with
    | true =>
      simp [updateStream, lookupStream, hk]
    | false =>
      simp only [updateStream, lookupStream, hk] at h ⊢
      simp only [Bool.false_eq_true, if_false] at h ⊢
      exact ih h

theorem not_mem_filter_bne (l : List Nat) (x : Nat) :
    x ∉ l.filter (fun s => s != x) := by
  intro hx
  rw [List.mem_filter] at hx
  simp at hx

/-- C3 (amended): `remove_session` is not idempotent: once a call for a
`(producer_id, session_id)` pair has succeeded, every repeated call for the
same pair returns an error (the producer's sinks map no longer has the
session, `remove_sink` fails `NotFound` and `remove_session` propagates it)
rather than succeeding silently. -/
theorem remove_session_second_call_fails (st : State) (bind : BindAnswer) (st' : State)
    (h : remove_session st bind = .ok st') :
    isErr (remove_session st' bind) = true := by
  cases hl : lookupStream st.streams bind.producer_id with
  | none => simp [remove_session, hl] at h
  | some stream =>
    simp only [remove_session, hl] at h
    cases hr : remove_sink stream.sinks bind.session_id with
    | error e => simp only [hr] at h; simp at h
    | ok sinks =>
      simp only [hr] at h
      have hst' : st' = { streams := updateStream st.streams bind.producer_id { sinks := sinks } } :=
        (Except.ok.inj h).symm
      unfold remove_sink at hr
      by_cases hm : bind.session_id ∈ stream.sinks
      · rw [if_pos hm] at hr
        have hs : sinks = stream.sinks.filter (fun s => s != bind.session_id) :=
          (Except.ok.inj hr).symm
        subst hst'
        have hl2 : lookupStream (updateStream st.streams bind.producer_id { sinks := sinks })
            bind.producer_id = some { sinks := sinks } :=
          lookupStream_update_self st.streams bind.producer_id stream { sinks := sinks } hl
        have hnm : bind.session_id ∉ sinks := by
          rw [hs]; exact not_mem_filter_bne stream.sinks bind.session_id
        simp only [remove_session, hl2, remove_sink, if_neg hnm]
        rfl
      · rw [if_neg hm] at hr; cases hr

theorem containsKey_lookup (l : List (Nat × StreamModel)) (id : Nat)
    (h : containsKey l id = true) : ∃ s, lookupStream l id = some s := by
  induction l with
  | nil => simp [containsKey] at h
  | cons p rest ih =>
    obtain ⟨k, st⟩ := p
    cases hk : (k == id) with
    | true => exact ⟨st, by simp [lookupStream, hk]⟩
    | false =>
      simp only [containsKey, List.any_cons, hk, Bool.false_or] at h
      obtain ⟨s, hs⟩ := ih h
      exact ⟨s, by simp only [lookupStream, hk, Bool.false_eq_true, if_false]; exact hs⟩

theorem containsKey_filter_ne (l : List (Nat × StreamModel)) (id : Nat) :
    containsKey (l.filter (fun p => p.fst != id)) id = false := by
  cases hc : containsKey (l.filter (fun p => p.fst != id)) id with
  | false => rfl
  | true =>
    exfalso
    unfold containsKey at hc
    rw [List.any_eq_true] at hc
    obtain ⟨p, hp, he⟩ := hc
    rw [List.mem_filter] at hp
    have hne := hp.2
    simp at he hne
    exact hne he

end ManagerModel

/-- C4: for every stream id present in the manager's index, `remove_stream`
succeeds once, the id is gone from the index afterwards, and a second call in
a row fails with the "Already removed" error. -/
theorem remove_stream_ok_then_notfound (st : ManagerModel.State) (id : Nat)
    (h : ManagerModel.containsKey st.streams id = true) :
    ∃ st', ManagerModel.remove_stream st id = .ok st'
      ∧ ManagerModel.containsKey st'.streams id = false
      ∧ isErr (ManagerModel.remove_stream st' id) = true := by
  obtain ⟨s, hl⟩ := ManagerModel.containsKey_lookup st.streams id h
  refine ⟨{ streams := st.streams.filter (fun p => p.fst != id) }, ?_, ?_, ?_⟩
  · simp [ManagerModel.remove_stream, h, hl]
  · exact ManagerModel.containsKey_filter_ne st.streams id
  · have hcf := ManagerModel.containsKey_filter_ne st.streams id
    simp [ManagerModel.remove_stream, hcf, isErr]

/-- C8: `RtspSink::unlink` with no stored tee source pad returns Ok and leaves
the world unchanged; for a linked sink in a well-formed world (pad linked to
the queue, queue in the pipeline, tee present, pad held by the tee, path
served), it unlinks the tee pad from the queue, removes the queue from the
pipeline, drives it to Null, releases the pad back to the tee, and stops
serving the RTSP path. -/
theorem rtsp_unlink_behaviour :
    (∀ (s : RtspSinkModel.RtspSink) (w : RtspSinkModel.World),
      s.tee_src_pad = none → RtspSinkModel.unlink s w = .ok w)
    ∧ (∀ (s : RtspSinkModel.RtspSink) (w : RtspSinkModel.World) (pad : String),
      s.tee_src_pad = some pad →
      w.links.contains (pad, RtspSinkModel.queueSinkPad s) = true →
      w.elements.contains s.queue = true →
      w.hasTee = true →
      w.teePads.contains pad = true →
      w.served.contains s.path = true →
      RtspSinkModel.unlink s w = .ok
        { elements := w.elements.filter (fun e => e != s.queue)
          links := w.links.filter (fun l => l != (pad, RtspSinkModel.queueSinkPad s))
          teePads := w.teePads.filter (fun p => p != pad)
          hasTee := w.hasTee
          served := w.served.filter (fun p => p != s.path)
          nulled := s.queue :: w.nulled }) := by
  constructor
  · intro s w h
    simp [RtspSinkModel.unlink, h]
  · intro s w pad h h1 h2 h3 h4 h5
    have m1 : (pad, RtspSinkModel.queueSinkPad s) ∈ w.links := by simpa using h1
    have m2 : s.queue ∈ w.elements := by simpa using h2
    have m4 : pad ∈ w.teePads := by simpa using h4
    have m5 : s.path ∈ w.served := by simpa using h5
    simp [RtspSinkModel.unlink, h, m1, m2, h3, m4, m5]

section Witnesses

/-- A request with an empty endpoint list (for the C6 witness). -/
def emptyEndpointsRequest : StreamBackend.VideoAndStreamInformation :=
  { name := "E"
    stream_information :=
      { endpoints := []
        configuration :=
          { encode := .H264
            height := 720
            width := 1280
            frame_interval := { numerator := 1, denominator := 30 } } }
    video_source := .Local { name := "E", device_path := "/dev/video1", typ := "Usb" } }

/-- A request with two rtsp endpoints (for the C7 witness). -/
def twoRtspRequest : StreamBackend.VideoAndStreamInformation :=
  { name := "R"
    stream_information :=
      { endpoints :=
          [{ scheme := "rtsp", host := some "0.0.0.0", port := some 8554, path := "/a" },
           { scheme := "rtsp", host := some "0.0.0.0", port := some 8554, path := "/b" }]
        configuration :=
          { encode := .H264
            height := 720
            width := 1280
            frame_interval := { numerator := 1, denominator := 30 } } }
    video_source := .Local { name := "R", device_path := "/dev/video3", typ := "Usb" } }

/-- A manager state with a single stream keyed 5 (for the C4 witness). -/
def streamIndexState : ManagerModel.State := { streams := [(5, { sinks := [] })] }

/-- A never-linked RTSP sink (for the C8 witness). -/
def unlinkedSink : RtspSinkModel.RtspSink :=
  { sink_id := 1, queue := "q1", path := "/video1", tee_src_pad := none }

/-- An arbitrary world (for the C8 witness). -/
def someWorld : RtspSinkModel.World :=
  { elements := ["src0"], links := [], teePads := [], hasTee := true
    served := [], nulled := [] }

/-- A linked RTSP sink (for the C8 witness). -/
def linkedSink : RtspSinkModel.RtspSink :=
  { sink_id := 2, queue := "q2", path := "/video2", tee_src_pad := some "teepad0" }

/-- A world in which `linkedSink` is fully linked (for the C8 witness). -/
def linkedWorld : RtspSinkModel.World :=
  { elements := ["src0", "q2"], links := [("teepad0", "q2:sink")]
    teePads := ["teepad0"], hasTee := true, served := ["/video2"], nulled := [] }

end Witnesses

/-- Witness for C2: the amended udp265 theorem applied at `udp265Request`. -/
theorem udp265_scheme_requires_h265_witness :
    (StreamBackend.check_scheme udp265Request = .ok ()
      ↔ udp265Request.stream_information.configuration.encode = .H265)
    ∧ isErr (StreamBackend.new udp265Request) = true :=
  udp265_scheme_requires_h265 udp265Request
    { scheme := "udp265", host := some "0.0.0.0", port := some 5600, path := "" } rfl rfl

/-- Witness for C6: validation rejection applied to the empty-endpoints request. -/
theorem stream_validation_rejections_witness :
    isErr (StreamBackend.new emptyEndpointsRequest) = true :=
  stream_validation_rejections emptyEndpointsRequest (Or.inl rfl)

/-- Witness for C7: rejection of the two-endpoint rtsp request. -/
theorem rtsp_multiple_endpoints_rejected_witness :
    isErr (StreamBackend.new twoRtspRequest) = true :=
  rtsp_multiple_endpoints_rejected twoRtspRequest (by decide) (by decide)

/-- Witness for C3 (amended): the second removal of session 7 fails. -/
theorem remove_session_second_call_fails_witness :
    isErr (ManagerModel.remove_session sessionStateAfter sessionBind) = true :=
  ManagerModel.remove_session_second_call_fails sessionState sessionBind sessionStateAfter
    (by decide)

/-- Witness for C4: removing stream 5 twice from the one-stream index. -/
theorem remove_stream_ok_then_notfound_witness :
    ∃ st', ManagerModel.remove_stream streamIndexState 5 = .ok st'
      ∧ ManagerModel.containsKey st'.streams 5 = false
      ∧ isErr (ManagerModel.remove_stream st' 5) = true :=
  remove_stream_ok_then_notfound streamIndexState 5 (by decide)

/-- Witness for C8: both unlink behaviours at concrete sinks and worlds. -/
theorem rtsp_unlink_behaviour_witness :
    RtspSinkModel.unlink unlinkedSink someWorld = .ok someWorld
    ∧ RtspSinkModel.unlink linkedSink linkedWorld = .ok
        { elements := linkedWorld.elements.filter (fun e => e != linkedSink.queue)
          links := linkedWorld.links.filter
            (fun l => l != ("teepad0", RtspSinkModel.queueSinkPad linkedSink))
          teePads := linkedWorld.teePads.filter (fun p => p != "teepad0")
          hasTee := linkedWorld.hasTee
          served := linkedWorld.served.filter (fun p => p != linkedSink.path)
          nulled := linkedSink.queue :: linkedWorld.nulled } :=
  ⟨rtsp_unlink_behaviour.1 unlinkedSink someWorld rfl,
   rtsp_unlink_behaviour.2 linkedSink linkedWorld "teepad0" rfl (by decide) (by decide) rfl
     (by decide) (by decide)⟩
